import Mathlib

/-!
# Verification of the Foundry pipeline orchestration core

Shallow embedding of `backend/src/foundry/domain/pipelines/service.py`
(class `PipelineService`), the pipeline data model of
`backend/src/foundry/infrastructure/database/models.py`, and the schema
types of `backend/src/foundry/domain/pipelines/schemas.py`, together with
theorems settling the specification claims about DAG validation, run and
task lifecycle, triggering, and dependency resolution.

Conventions of the embedding:
* Python `datetime.now(timezone.utc)` is modelled by an explicit `now : Nat`
  parameter (an abstract tick supplied by the caller of each operation).
* Python `str | None` fields are `Option String`; Python truthiness of such
  a value (`if error_message:`) is `pyTruthy` (`none` and `some ""` are falsy).
* A raised `foundry.core.exceptions` exception is the `Except.error` branch
  of the operation's result; the distinct `ValidationError` message strings
  of `_validate_dag` / `_check_dag_cycles` are the constructors of `DagError`,
  carrying exactly the ids interpolated into the message.
-/

namespace Foundry

/-- `PipelineStatus` enum of `models.py` (used for both runs and tasks). -/
inductive PipelineStatus where
  | PENDING
  | RUNNING
  | SUCCESS
  | FAILED
  | CANCELLED
deriving DecidableEq, Repr

open PipelineStatus

/-- `TaskDefinition` of `schemas.py`: `task_id` (min_length 1),
`task_type` (min_length 1), `config` (opaque map, read by no modelled
operation, kept abstract as a list of pairs), `dependencies`. -/
structure TaskDefinition where
  task_id : String
  task_type : String := "op"
  config : List (String × String) := []
  dependencies : List String := []
deriving DecidableEq, Repr

/-- `DAGDefinition` of `schemas.py`: the ordered task list plus
`default_args` (opaque, read by no modelled operation). -/
structure DAGDefinition where
  tasks : List TaskDefinition
  default_args : List (String × String) := []
deriving DecidableEq, Repr

/-- The distinct `ValidationError` messages raised by
`PipelineService._validate_dag` and `_check_dag_cycles`, each carrying the
ids interpolated into the message string. -/
inductive DagError where
  /-- "DAG must have at least one task" -/
  | EmptyDAG
  /-- "Each task must have a task_id" -/
  | MissingTaskId
  /-- "Duplicate task_id: {task_id}" -/
  | DuplicateTaskId (id : String)
  /-- "Task '{task_id}' depends on unknown task '{dep}'" -/
  | UnknownDependency (task dep : String)
  /-- "DAG contains a cycle" -/
  | CycleDetected
deriving DecidableEq, Repr

/-- First loop of `_validate_dag` (service.py:170-177): walk the tasks,
rejecting a falsy (empty) `task_id` and a `task_id` already seen, and
accumulate the set of ids.  Returns the collected ids on success. -/
def collectTaskIds : List TaskDefinition → List String → Except DagError (List String)
  | [], seen => .ok seen
  | t :: rest, seen =>
    if t.task_id = "" then .error .MissingTaskId
    else if t.task_id ∈ seen then .error (.DuplicateTaskId t.task_id)
    else collectTaskIds rest (t.task_id :: seen)

/-- Inner loop of the dependency check (service.py:181-185) for one task:
each dependency must be a known task id. -/
def checkDepsOfTask (ids : List String) (tid : String) :
    List String → Except DagError Unit
  | [] => .ok ()
  | d :: ds =>
    if d ∈ ids then checkDepsOfTask ids tid ds
    else .error (.UnknownDependency tid d)

/-- Second loop of `_validate_dag` (service.py:180-185): every dependency of
every task must reference a collected task id. -/
def checkAllDeps (ids : List String) : List TaskDefinition → Except DagError Unit
  | [] => .ok ()
  | t :: rest =>
    match checkDepsOfTask ids t.task_id t.dependencies with
    | .error e => .error e
    | .ok _ => checkAllDeps ids rest

/-- Adjacency list of `_check_dag_cycles` (service.py:193-196):
`graph[task_id] = dependencies`.  The Python dict is keyed by `task_id`;
the cycle check only runs after duplicate ids were rejected, so the keys
are distinct and first-match lookup agrees with the dict. -/
def buildGraph (tasks : List TaskDefinition) : List (String × List String) :=
  tasks.map (fun t => (t.task_id, t.dependencies))

/-- The `for neighbor in graph.get(node, [])` loop inside `dfs`
(service.py:204-208), with the recursive visit of a white neighbor abstracted
as the callback `visit`: a gray neighbor signals a cycle, a white neighbor is
visited, a black neighbor is skipped.  The color state `(gray, black)` is
threaded through the loop. -/
def dfsNeighbors
    (visit : String → List String → List String →
      Option (Bool × List String × List String)) :
    List String → List String → List String →
    Option (Bool × List String × List String)
  | [], g, b => some (false, g, b)
  | n :: ns, g, b =>
    if n ∈ g then some (true, g, b)
    else if n ∈ b then dfsNeighbors visit ns g b
    else
      match visit n g b with
      | none => none
      | some (true, g2, b2) => some (true, g2, b2)
      | some (false, g2, b2) => dfsNeighbors visit ns g2 b2

/-- The recursive `dfs` of `_check_dag_cycles` (service.py:202-210).
Colors are represented by the two lists `gray` (in-progress) and `black`
(finished); a node in neither is white.  `fuel` bounds the recursion depth
(the Python recursion is bounded by the number of nodes, since `dfs` is only
entered on a white node, which is immediately marked gray); `none` means the
fuel ran out, which never happens when `fuel` exceeds the node count.
Returns (cycle-found, gray, black). -/
def dfsVisit (graph : List (String × List String)) :
    Nat →
      String → List String → List String →
        Option (Bool × List String × List String)
  | 0 => fun _ _ _ => none
  | fuel + 1 => fun node gray black =>
    match dfsNeighbors (dfsVisit graph fuel) ((graph.lookup node).getD [])
        (node :: gray) black with
    | none => none
    | some (true, g, b) => some (true, g, b)
    | some (false, g, b) => some (false, g.erase node, node :: b)

/-- Outer loop of `_check_dag_cycles` (service.py:212-215): start a DFS from
every still-white node, so that every node of a possibly-disconnected graph
is visited.  Returns `some true` iff a cycle was found. -/
def cyclesFromAll (graph : List (String × List String)) :
    List String → List String → List String → Option Bool
  | [], _, _ => some false
  | tid :: rest, gray, black =>
    if tid ∈ gray ∨ tid ∈ black then cyclesFromAll graph rest gray black
    else
      match dfsVisit graph (graph.length + 1) tid gray black with
      | none => none
      | some (true, _, _) => some true
      | some (false, g, b) => cyclesFromAll graph rest g b

/-- `PipelineService._check_dag_cycles` (service.py:190-215): raises
"DAG contains a cycle" iff the three-color DFS, started from every unvisited
node, reaches a gray node. -/
def check_dag_cycles (tasks : List TaskDefinition) : Except DagError Unit :=
  let graph := buildGraph tasks
  match cyclesFromAll graph (graph.map Prod.fst) [] [] with
  | some false => .ok ()
  | _ => .error .CycleDetected

/-- `PipelineService._validate_dag` (service.py:164-188): empty check, then
task-id collection (missing / duplicate ids), then dependency resolution,
then cycle detection, in that order. -/
def validate_dag (dag : DAGDefinition) : Except DagError Unit :=
  if dag.tasks = [] then .error .EmptyDAG
  else
    match collectTaskIds dag.tasks [] with
    | .error e => .error e
    | .ok ids =>
      match checkAllDeps ids dag.tasks with
      | .error e => .error e
      | .ok _ => check_dag_cycles dag.tasks

/-- The `foundry.core.exceptions` classes raised by `PipelineService`
(exceptions.py), each carrying the data interpolated into its message. -/
inductive FoundryError where
  | NotFoundError (resource identifier : String)
  | ConflictError (resource message : String)
  | ValidationError (message : String)
deriving DecidableEq, Repr

/-- Python truthiness of a `str | None` value: `None` and `""` are falsy. -/
def pyTruthy : Option String → Bool
  | none => false
  | some s => s ≠ ""

/-- The mutable lifecycle fields of a `PipelineRun` row (models.py:647-681).
The row additionally carries identity and bookkeeping columns
(`id`, `tenant_id`, `pipeline_id`, `trigger_type`, `parameters`,
`triggered_by`); it has **no** DAG-definition column, only the
`pipeline_id` foreign key to the parent `Pipeline`. -/
structure RunState where
  status : PipelineStatus
  start_time : Option Nat := none
  end_time : Option Nat := none
  error_message : Option String := none
deriving DecidableEq, Repr

/-- The fields of a `PipelineTask` row (models.py:683-708) read or written
by `PipelineService` (besides identity columns `id`, `tenant_id`,
`pipeline_run_id`). -/
structure TaskState where
  task_id : String
  status : PipelineStatus
  start_time : Option Nat := none
  end_time : Option Nat := none
  error_message : Option String := none
  logs : Option String := none
deriving DecidableEq, Repr

/-- `PipelineService.update_run_status` (service.py:306-326), applied to the
looked-up run: stamp `start_time` on a `PENDING → RUNNING` transition, stamp
`end_time` (and a truthy `error_message`) on any transition into a terminal
status, then overwrite `status` unconditionally.  The source performs no
state-machine check and never raises on any `status` argument. -/
def update_run_status (run : RunState) (status : PipelineStatus)
    (error_message : Option String := none) (now : Nat := 0) : RunState :=
  let run :=
    if status = RUNNING ∧ run.status = PENDING then
      { run with start_time := some now }
    else run
  let run :=
    if status = SUCCESS ∨ status = FAILED ∨ status = CANCELLED then
      { run with
        end_time := some now
        error_message :=
          if pyTruthy error_message then error_message else run.error_message }
    else run
  { run with status := status }

/-- `PipelineService.update_task_status` (service.py:355-387), applied to the
looked-up task: same stamping as for runs, then overwrite `status`
unconditionally, then overwrite `error_message` and `logs` whenever the
supplied value is truthy (for every target status, terminal or not).
The source performs no state-machine check, computes no ready set or
terminal check, and never touches the parent run. -/
def update_task_status (task : TaskState) (status : PipelineStatus)
    (error_message : Option String := none) (logs : Option String := none)
    (now : Nat := 0) : TaskState :=
  let task :=
    if status = RUNNING ∧ task.status = PENDING then
      { task with start_time := some now }
    else task
  let task :=
    if status = SUCCESS ∨ status = FAILED ∨ status = CANCELLED then
      { task with end_time := some now }
    else task
  let task := { task with status := status }
  let task :=
    if pyTruthy error_message then { task with error_message := error_message }
    else task
  if pyTruthy logs then { task with logs := logs } else task

/-- A `PipelineRun` row with the `PipelineTask` rows that reference it
(the `tasks` relationship of models.py:677-681). -/
structure RunWithTasks where
  run : RunState
  tasks : List TaskState
deriving DecidableEq, Repr

/-- `PipelineService.cancel_pipeline_run` (service.py:328-335): reject unless
the run is `PENDING` or `RUNNING`, otherwise delegate to `update_run_status`
with `CANCELLED`.  The task rows of the run are not touched. -/
def cancel_pipeline_run (s : RunWithTasks) (now : Nat := 0) :
    Except FoundryError RunWithTasks :=
  if s.run.status = PENDING ∨ s.run.status = RUNNING then
    .ok { s with run := update_run_status s.run CANCELLED none now }
  else .error (.ValidationError "Cannot cancel a completed pipeline run")

/-- The columns of a `Pipeline` row (models.py:620-645) read by the
triggering and update paths. -/
structure PipelineRec where
  name : String := "p"
  dag_definition : DAGDefinition
  enabled : Bool := true
deriving DecidableEq, Repr

/-- `PipelineService.trigger_pipeline` (service.py:221-258), after the
pipeline lookup: reject a disabled pipeline with
`ValidationError("Pipeline is disabled")` before creating anything;
otherwise create one `PENDING` run plus one `PENDING` task row per entry of
the pipeline's current `dag_definition.tasks`, in one transaction (the
`Except` result models the transaction: an error creates no rows, and a
returned run always has its full task set). -/
def trigger_pipeline (p : PipelineRec) : Except FoundryError RunWithTasks :=
  if ¬ p.enabled then .error (.ValidationError "Pipeline is disabled")
  else
    .ok
      { run := { status := PENDING }
        tasks := p.dag_definition.tasks.map fun td =>
          { task_id := td.task_id, status := PENDING } }

/-- The `dag_definition` branch of `PipelineService.update_pipeline`
(service.py:146-152): validate the new DAG, then overwrite the pipeline's
`dag_definition` column in place. -/
def update_pipeline_dag (p : PipelineRec) (newDag : DAGDefinition) :
    Except DagError PipelineRec :=
  match validate_dag newDag with
  | .error e => .error e
  | .ok _ => .ok { p with dag_definition := newDag }

/-- The DAG visible to a run: `PipelineRun` (models.py:647-681) stores only
the `pipeline_id` foreign key and `trigger_pipeline` (service.py:234-241)
copies no DAG into the run or its task rows, so the only dependency
information reachable from a run is the parent pipeline's **current**
`dag_definition` column. -/
def run_visible_dag (p : PipelineRec) (_ : RunWithTasks) : DAGDefinition :=
  p.dag_definition

/-! ## Dependency Resolver / Scheduler

The repository under verification contains no Dependency Resolver: no
`ready_tasks` or `is_terminal` appears anywhere under `src/`, and
`update_task_status` never consults dependencies.  The definitions of this
section are therefore modelled from the specification (§4.2), not from
source code. -/

/-- Modelled from the spec: `ready_tasks(dag, task_statuses) -> set[task_id]`
of §4.2, an operation the repository does not implement.  "A task is *ready*
iff its own status is `PENDING` and every id in its `dependencies` has
status `SUCCESS`."  The status map is a total function; the returned set is
represented as the list of ready task ids in DAG order. -/
def ready_tasks (dag : DAGDefinition) (st : String → PipelineStatus) :
    List String :=
  (dag.tasks.filter fun t =>
      decide (st t.task_id = PENDING) &&
        t.dependencies.all fun d => decide (st d = SUCCESS)).map
    TaskDefinition.task_id

/-- Modelled from the spec: "A task is *blocked* (never becomes ready) iff
any dependency has status `FAILED` or `CANCELLED`" (§4.2). -/
def is_blocked (dag : DAGDefinition) (st : String → PipelineStatus)
    (tid : String) : Bool :=
  dag.tasks.any fun t =>
    decide (t.task_id = tid) &&
      t.dependencies.any fun d =>
        decide (st d = FAILED) || decide (st d = CANCELLED)

/-- Modelled from the spec: one pass of the caller obligation "blocked tasks
must be marked `CANCELLED` by the caller without ever dispatching them"
(§4.2): every still-`PENDING` blocked task is set to `CANCELLED`, all other
statuses are left unchanged.  Iterating this step propagates a failure
transitively down the dependency graph. -/
def cancel_blocked_step (dag : DAGDefinition) (st : String → PipelineStatus) :
    String → PipelineStatus :=
  fun tid =>
    if st tid = PENDING ∧ is_blocked dag st tid then CANCELLED else st tid

/-- Why a run is terminal (§4.2's `bool | TerminalReason`). -/
inductive TerminalReason where
  | success
  | failure
deriving DecidableEq, Repr

/-- Modelled from the spec: `is_terminal(dag, task_statuses)` of §4.2, an
operation the repository does not implement: "a run is terminal successfully
when every task is `SUCCESS`; terminal with failure when no task is `READY`
or `RUNNING` and at least one task is `FAILED` or the set of
`CANCELLED`-due-to-upstream tasks plus `SUCCESS` tasks covers all remaining
tasks." -/
def is_terminal (dag : DAGDefinition) (st : String → PipelineStatus) :
    Option TerminalReason :=
  if dag.tasks.all fun t => decide (st t.task_id = SUCCESS) then
    some TerminalReason.success
  else if
    ready_tasks dag st = [] ∧
      (dag.tasks.all fun t => decide (¬ st t.task_id = RUNNING)) ∧
      ((dag.tasks.any fun t => decide (st t.task_id = FAILED)) ∨
        dag.tasks.all fun t =>
          decide (st t.task_id = SUCCESS ∨ st t.task_id = CANCELLED)) then
    some TerminalReason.failure
  else none

/-- An edge of the dependency graph: `v`'s definition lists `u` among its
dependencies (so `v` is directly downstream of `u`). -/
def dep_edge (dag : DAGDefinition) (u v : String) : Prop :=
  ∃ t, t ∈ dag.tasks ∧ t.task_id = v ∧ u ∈ t.dependencies

/-! ## Concrete inputs used by the theorems -/

/-- The spec's two-task DAG: `A` (no deps), `B` depends on `A`. -/
def dagAB : DAGDefinition :=
  { tasks := [{ task_id := "A" }, { task_id := "B", dependencies := ["A"] }] }

/-- Status map of a freshly created run of `dagAB`. -/
def stFresh : String → PipelineStatus := fun _ => PENDING

/-- Status map of `dagAB` after `A` is marked `SUCCESS`. -/
def stASucc : String → PipelineStatus :=
  fun tid => if tid = "A" then SUCCESS else PENDING

/-- Status map of `dagAB` after `A` and `B` are marked `SUCCESS`. -/
def stBoth : String → PipelineStatus := fun _ => SUCCESS

/-- Status map of `dagAB` after `A` is marked `FAILED`. -/
def stAFail : String → PipelineStatus :=
  fun tid => if tid = "A" then FAILED else PENDING

/-- The spec's cyclic DAG `A→B→C→A`: each task depends on the previous one,
and the first depends on the last. -/
def dagCycleABC : DAGDefinition :=
  { tasks :=
      [{ task_id := "A", dependencies := ["C"] },
       { task_id := "B", dependencies := ["A"] },
       { task_id := "C", dependencies := ["B"] }] }

/-- The spec's acyclic diamond-without-closing-edge: `B` and `C` each depend
on `A`. -/
def dagDiamond : DAGDefinition :=
  { tasks :=
      [{ task_id := "A" },
       { task_id := "B", dependencies := ["A"] },
       { task_id := "C", dependencies := ["A"] }] }

/-- A disconnected graph whose cycle (`X ↔ Y`) is unreachable from the first
task `D`: only a traversal started from every unvisited node finds it. -/
def dagDisconnected : DAGDefinition :=
  { tasks :=
      [{ task_id := "D" },
       { task_id := "X", dependencies := ["Y"] },
       { task_id := "Y", dependencies := ["X"] }] }

/-- A DAG with zero tasks. -/
def dagEmpty : DAGDefinition := { tasks := [] }

/-- A DAG with a duplicated task id. -/
def dagDup : DAGDefinition :=
  { tasks := [{ task_id := "A" }, { task_id := "A" }] }

/-- A DAG whose single task depends on an id absent from the task set. -/
def dagDangling : DAGDefinition :=
  { tasks := [{ task_id := "A", dependencies := ["Z"] }] }

/-- A task row in `RUNNING`, start already stamped. -/
def taskRunningB : TaskState :=
  { task_id := "B", status := RUNNING, start_time := some 1 }

/-- A run row already terminal in `SUCCESS`. -/
def runDoneS : RunState :=
  { status := SUCCESS, start_time := some 1, end_time := some 2 }

/-- A run in `RUNNING` with one still-`PENDING` task row. -/
def runCancelScenario : RunWithTasks :=
  { run := { status := RUNNING, start_time := some 1 }
    tasks := [{ task_id := "B", status := PENDING }] }

/-- A run state produced by the code's own operations from a fresh run:
dispatched at tick 1 (`PENDING → RUNNING`, stamping `start_time`), then
moved back to `PENDING` (`update_run_status` accepts any status).  Its
status is `PENDING` while `start_time` is already set. -/
def runPendingStamped : RunState :=
  update_run_status (update_run_status { status := PENDING } RUNNING none 1)
    PENDING none 1

/-- Single-task DAG `D1` for the snapshot scenario. -/
def dagD1 : DAGDefinition := { tasks := [{ task_id := "A" }] }

/-- Two-task DAG `D2` replacing `D1` mid-run. -/
def dagD2 : DAGDefinition :=
  { tasks := [{ task_id := "A" }, { task_id := "B", dependencies := ["A"] }] }

/-- An enabled pipeline currently holding `dagD1`. -/
def pipeD1 : PipelineRec := { dag_definition := dagD1 }

/-- A disabled pipeline. -/
def pipeDisabled : PipelineRec := { dag_definition := dagAB, enabled := false }

/-- A task row with an error message and logs already recorded. -/
def taskWithHistory : TaskState :=
  { task_id := "A", status := RUNNING, start_time := some 1
    error_message := some "old error", logs := some "old logs" }

/-! ## Theorems -/

/-- C2: the claim says `update_task_status` enforces the per-task state
machine (`RUNNING → PENDING` never valid) and, when the run becomes
terminal, applies the run-level transition to the parent `PipelineRun`.
The code does neither: evaluated on a task in `RUNNING` with the requested
status `PENDING`, `update_task_status` (service.py:355-387) returns the
task with status `PENDING` — the transition is applied, nothing is
rejected — and its result is the task row alone, with no terminal check
and no effect on the parent run. -/
theorem C2_running_to_pending_is_accepted :
    update_task_status taskRunningB PENDING none none 2 =
      { task_id := "B", status := PENDING, start_time := some 1 } := by
  rfl

/-- C3: the claim says a terminal run rejects any further terminal
transition with `InvalidTransition`, leaving status, timestamps and
`error_message` unchanged.  The code has no such guard: evaluated on a run
already in `SUCCESS`, `update_run_status` (service.py:306-326) applies the
`FAILED` transition, re-stamps `end_time` and records the error message. -/
theorem C3_terminal_reentry_is_accepted :
    update_run_status runDoneS FAILED (some "boom") 3 =
      { status := FAILED, start_time := some 1, end_time := some 3,
        error_message := some "boom" } := by
  rfl

/-- C4: the claim says cancelling a `PENDING`/`RUNNING` run also transitions
every non-terminal `PipelineTask` of the run to `CANCELLED`.  The code's
guard behaves as claimed (cancelling a `SUCCESS` run is rejected), but
`cancel_pipeline_run` (service.py:328-335) updates only the run row:
evaluated on a `RUNNING` run with one `PENDING` task, the run becomes
`CANCELLED` while the task row is returned unchanged, still `PENDING`. -/
theorem C4_cancel_does_not_cascade_to_tasks :
    cancel_pipeline_run runCancelScenario 5 =
        .ok { run := { status := CANCELLED, start_time := some 1,
                       end_time := some 5 }
              tasks := [{ task_id := "B", status := PENDING }] } ∧
      cancel_pipeline_run { run := runDoneS, tasks := [] } 5 =
        .error (.ValidationError "Cannot cancel a completed pipeline run") := by
  exact ⟨rfl, rfl⟩

/-- C6: the claim says the pipeline's `DAGDefinition` is copied into the
`PipelineRun` at creation and later pipeline edits never affect the run's
captured DAG.  The code stores no copy: `PipelineRun` (models.py:647-681)
has no DAG column and `trigger_pipeline` (service.py:234-241) copies
nothing, so the only DAG reachable from a run is the parent pipeline's
current `dag_definition` — after `update_pipeline` replaces `dagD1` by
`dagD2`, dependency resolution for the already-created run observes
`dagD2`. -/
theorem C6_run_observes_pipeline_edit :
    ∃ rt p2,
      trigger_pipeline pipeD1 = .ok rt ∧
        update_pipeline_dag pipeD1 dagD2 = .ok p2 ∧
        run_visible_dag pipeD1 rt = dagD1 ∧
        run_visible_dag p2 rt = dagD2 ∧
        dagD2 ≠ dagD1 := by
  exact ⟨_, _, rfl, rfl, rfl, rfl, by decide⟩

/-- C7: `validate` (via `_check_dag_cycles`, a three-color DFS started from
every still-unvisited node) rejects the cyclic DAG `A→B→C→A` with
`CycleDetected`, accepts the acyclic diamond `A→B, A→C`, and — because the
traversal is restarted from every unvisited node of a possibly-disconnected
graph — also rejects a graph whose cycle is unreachable from the first
task. -/
theorem C7_cycle_detection :
    validate_dag dagCycleABC = .error .CycleDetected ∧
      validate_dag dagDiamond = .ok () ∧
      validate_dag dagDisconnected = .error .CycleDetected := by
  exact ⟨rfl, rfl, rfl⟩

/-- C5: `trigger_pipeline` on a disabled pipeline fails with
`ValidationError("Pipeline is disabled")` before creating anything (the
`Except.error` result carries no run and no tasks); on an enabled pipeline
it returns exactly one run in `PENDING` with one `PENDING` task row per
`TaskDefinition` of the pipeline's current DAG, in the same order, all
fields fresh — the run is only ever observed with its full task set. -/
theorem C5_trigger_guard_and_creation (p : PipelineRec) :
    (p.enabled = false →
      trigger_pipeline p = .error (.ValidationError "Pipeline is disabled")) ∧
      (p.enabled = true →
        ∃ rt, trigger_pipeline p = .ok rt ∧
          rt.run = { status := PENDING } ∧
          rt.tasks.map TaskState.task_id =
            p.dag_definition.tasks.map TaskDefinition.task_id ∧
          ∀ t ∈ rt.tasks,
            t.status = PENDING ∧ t.start_time = none ∧ t.end_time = none ∧
              t.error_message = none ∧ t.logs = none) := by
  constructor
  · intro h
    simp [trigger_pipeline, h]
  · intro h
    refine
      ⟨{ run := { status := PENDING }
         tasks := p.dag_definition.tasks.map fun td =>
           { task_id := td.task_id, status := PENDING } },
        ?_, rfl, ?_, ?_⟩
    · simp [trigger_pipeline, h]
    · simp [List.map_map]
    · intro t ht
      simp only [List.mem_map] at ht
      obtain ⟨td, _, rfl⟩ := ht
      exact ⟨rfl, rfl, rfl, rfl, rfl⟩

/-- C5 witness: the disabled branch at `pipeDisabled` and the creation
branch at `pipeD1`. -/
theorem C5_trigger_witness :
    (trigger_pipeline pipeDisabled =
        .error (.ValidationError "Pipeline is disabled")) ∧
      ∃ rt, trigger_pipeline pipeD1 = .ok rt ∧
        rt.run = { status := PENDING } ∧
        rt.tasks.map TaskState.task_id =
          pipeD1.dag_definition.tasks.map TaskDefinition.task_id ∧
        ∀ t ∈ rt.tasks,
          t.status = PENDING ∧ t.start_time = none ∧ t.end_time = none ∧
            t.error_message = none ∧ t.logs = none :=
  ⟨(C5_trigger_guard_and_creation pipeDisabled).1 rfl,
    (C5_trigger_guard_and_creation pipeD1).2 rfl⟩

/-- C9 counterexample: the claim says `PENDING → RUNNING` sets `start_time`
only if it is unset.  The code's condition is on the current status being
`PENDING`, not on `start_time` being unset: `runPendingStamped` — reached
from a fresh run by the code's own operations (dispatch, then the
un-dispatch `update_run_status` accepts) — is `PENDING` with `start_time`
already `some 1`, and dispatching it at tick 2 re-stamps `start_time` to
`some 2`. -/
theorem C9_counterexample_restamp :
    runPendingStamped.status = PENDING ∧
      runPendingStamped.start_time = some 1 ∧
      (update_run_status runPendingStamped RUNNING none 2).start_time =
        some 2 := by
  exact ⟨rfl, rfl, rfl⟩

/-- C9 (amended): for both runs and tasks, a `RUNNING` update stamps
`start_time` iff the current status is `PENDING` — so a second dispatch of
an already-`RUNNING` record never re-stamps it, though a re-dispatch after a
code-accepted `RUNNING → PENDING` reversal does — every transition into
`SUCCESS`, `FAILED` or `CANCELLED` sets `end_time`, and a `FAILED`
transition with a non-empty `error_message` records it. -/
theorem C9_timestamp_stamping (r : RunState) (t : TaskState)
    (s : PipelineStatus) (e l : Option String) (msg : String) (now : Nat) :
    (r.status = RUNNING →
      (update_run_status r RUNNING e now).start_time = r.start_time) ∧
      (r.status = PENDING →
        (update_run_status r RUNNING e now).start_time = some now) ∧
      (s = SUCCESS ∨ s = FAILED ∨ s = CANCELLED →
        (update_run_status r s e now).end_time = some now) ∧
      (msg ≠ "" →
        (update_run_status r FAILED (some msg) now).error_message =
          some msg) ∧
      (t.status = RUNNING →
        (update_task_status t RUNNING e l now).start_time = t.start_time) ∧
      (t.status = PENDING →
        (update_task_status t RUNNING e l now).start_time = some now) ∧
      (s = SUCCESS ∨ s = FAILED ∨ s = CANCELLED →
        (update_task_status t s e l now).end_time = some now) ∧
      (msg ≠ "" →
        (update_task_status t FAILED (some msg) l now).error_message =
          some msg) := by
  refine ⟨?_, ?_, ?_, ?_, ?_, ?_, ?_, ?_⟩
  · intro h
    simp [update_run_status, h]
  · intro h
    simp [update_run_status, h]
  · intro h
    simp only [update_run_status]
    split_ifs <;> simp_all
  · intro h
    simp [update_run_status, pyTruthy, h]
  · intro h
    simp only [update_task_status, pyTruthy]
    split_ifs <;> simp_all
  · intro h
    simp only [update_task_status, pyTruthy]
    split_ifs <;> simp_all
  · intro h
    simp only [update_task_status, pyTruthy]
    split_ifs <;> simp_all
  · intro h
    simp only [update_task_status, pyTruthy]
    split_ifs <;> simp_all

/-- C9 witness: the stamping clauses applied at concrete runs and tasks. -/
theorem C9_stamping_witness :
    (update_run_status { status := PENDING } RUNNING none 4).start_time =
        some 4 ∧
      (update_run_status { status := RUNNING, start_time := some 1 } RUNNING
          none 4).start_time = some 1 ∧
      (update_run_status runDoneS SUCCESS none 4).end_time = some 4 ∧
      (update_run_status { status := RUNNING } FAILED (some "x")
          4).error_message = some "x" ∧
      (update_task_status taskRunningB RUNNING none none 4).start_time =
        some 1 :=
  ⟨(C9_timestamp_stamping { status := PENDING } taskRunningB SUCCESS none
        none "x" 4).2.1 rfl,
    (C9_timestamp_stamping { status := RUNNING, start_time := some 1 }
        taskRunningB SUCCESS none none "x" 4).1 rfl,
    (C9_timestamp_stamping runDoneS taskRunningB SUCCESS none none "x"
        4).2.2.1 (Or.inl rfl),
    (C9_timestamp_stamping { status := RUNNING } taskRunningB SUCCESS none
        none "x" 4).2.2.2.1 (by decide),
    (C9_timestamp_stamping { status := PENDING } taskRunningB SUCCESS none
        none "x" 4).2.2.2.2.1 rfl⟩

/-- C10: an `update_task_status` call with `error_message = None`
(respectively `logs = None`) leaves the stored `error_message`
(respectively `logs`) unchanged, whatever the other argument and the target
status (terminal or not); a non-empty `logs` value replaces the stored logs
outright rather than appending. -/
theorem C10_error_and_logs_frame (t : TaskState) (s : PipelineStatus)
    (e l : Option String) (lg : String) (now : Nat) :
    ((update_task_status t s none l now).error_message = t.error_message) ∧
      ((update_task_status t s e none now).logs = t.logs) ∧
      (lg ≠ "" → (update_task_status t s e (some lg) now).logs = some lg) := by
  refine ⟨?_, ?_, ?_⟩
  · simp only [update_task_status, pyTruthy]
    split_ifs <;> simp_all
  · simp only [update_task_status, pyTruthy]
    split_ifs <;> simp_all
  · intro h
    simp only [update_task_status, pyTruthy]
    split_ifs <;> simp_all

/-- C10 witness: updating `taskWithHistory` (which has both an error and
logs recorded) with `None` arguments keeps the stored values, also on a
non-terminal target status; supplying non-empty logs replaces them. -/
theorem C10_frame_witness :
    (update_task_status taskWithHistory RUNNING none (some "L")
          3).error_message = some "old error" ∧
      (update_task_status taskWithHistory RUNNING (some "new") none 3).logs =
        some "old logs" ∧
      (update_task_status taskWithHistory SUCCESS (some "new") (some "L2")
          3).logs = some "L2" :=
  ⟨(C10_error_and_logs_frame taskWithHistory RUNNING none (some "L") "L2"
        3).1,
    (C10_error_and_logs_frame taskWithHistory RUNNING (some "new") none "L2"
        3).2.1,
    (C10_error_and_logs_frame taskWithHistory SUCCESS (some "new")
        (some "L2") "L2" 3).2.2 (by decide)⟩

/-! ## Dependency Resolver and validator theorems -/


/-- A task id is in the ready set iff some task entry carries it, its own
status is `PENDING`, and every dependency has status `SUCCESS`. -/
theorem mem_ready_tasks (dag : DAGDefinition) (st : String → PipelineStatus)
    (tid : String) :
    tid ∈ ready_tasks dag st ↔
      ∃ t, t ∈ dag.tasks ∧ t.task_id = tid ∧ st tid = PENDING ∧
        ∀ d ∈ t.dependencies, st d = SUCCESS := by
  simp only [ready_tasks, List.mem_map, List.mem_filter, Bool.and_eq_true,
    decide_eq_true_eq, List.all_eq_true]
  constructor
  · rintro ⟨t, ⟨ht, hp, hd⟩, rfl⟩
    exact ⟨t, ht, rfl, hp, fun d hdm => hd d hdm⟩
  · rintro ⟨t, ht, rfl, hp, hd⟩
    exact ⟨t, ⟨ht, hp, fun d hdm => hd d hdm⟩, rfl⟩

/-- `is_blocked` holds iff some task entry with this id has a dependency in
`FAILED` or `CANCELLED`. -/
theorem is_blocked_iff (dag : DAGDefinition) (st : String → PipelineStatus)
    (tid : String) :
    is_blocked dag st tid = true ↔
      ∃ t, t ∈ dag.tasks ∧ t.task_id = tid ∧
        ∃ d ∈ t.dependencies, st d = FAILED ∨ st d = CANCELLED := by
  simp only [is_blocked, List.any_eq_true, Bool.and_eq_true, decide_eq_true_eq,
    Bool.or_eq_true]

/-- The blocked-cancellation step never changes a non-`PENDING` task. -/
theorem cancel_blocked_step_stays (dag : DAGDefinition)
    (st : String → PipelineStatus) (tid : String) (h : st tid ≠ PENDING) :
    cancel_blocked_step dag st tid = st tid := by
  simp [cancel_blocked_step, h]

/-- The blocked-cancellation step maps a `PENDING` task to `PENDING` or
`CANCELLED`. -/
theorem cancel_blocked_step_pending_cases (dag : DAGDefinition)
    (st : String → PipelineStatus) (tid : String) (h : st tid = PENDING) :
    cancel_blocked_step dag st tid = PENDING ∨
      cancel_blocked_step dag st tid = CANCELLED := by
  unfold cancel_blocked_step
  split_ifs <;> simp [h]

/-- The blocked-cancellation step cancels a blocked `PENDING` task. -/
theorem cancel_blocked_step_cancels (dag : DAGDefinition)
    (st : String → PipelineStatus) (tid : String) (h : st tid = PENDING)
    (hb : is_blocked dag st tid = true) :
    cancel_blocked_step dag st tid = CANCELLED := by
  simp [cancel_blocked_step, h, hb]

/-- Propagation invariant: along a dependency chain rooted in a `FAILED` or
`CANCELLED` task, with every later chain member `PENDING` or already
`CANCELLED`, iterating the blocked-cancellation step once per chain edge
cancels the last member. -/
theorem cancel_propagation_aux (dag : DAGDefinition) :
    ∀ (p : List String) (st : String → PipelineStatus) (v0 vk : String),
      List.Chain (dep_edge dag) v0 (p ++ [vk]) →
      (st v0 = FAILED ∨ st v0 = CANCELLED) →
      (∀ v ∈ p ++ [vk], st v = PENDING ∨ st v = CANCELLED) →
      (cancel_blocked_step dag)^[p.length + 1] st vk = CANCELLED := by
  intro p
  induction p with
  | nil =>
    intro st v0 vk hchain h0 hp
    rw [List.nil_append, List.chain_cons] at hchain
    obtain ⟨hedge, -⟩ := hchain
    rw [List.length_nil, Function.iterate_one]
    rcases hp vk (List.mem_singleton_self vk) with hpend | hcanc
    · refine cancel_blocked_step_cancels dag st vk hpend ?_
      rw [is_blocked_iff]
      obtain ⟨t, ht, htid, hdep⟩ := hedge
      exact ⟨t, ht, htid, v0, hdep, h0⟩
    · rw [cancel_blocked_step_stays dag st vk (by simp [hcanc])]
      exact hcanc
  | cons v1 p' ih =>
    intro st v0 vk hchain h0 hp
    rw [List.cons_append, List.chain_cons] at hchain
    obtain ⟨hedge, hchain'⟩ := hchain
    have hv1 : cancel_blocked_step dag st v1 = CANCELLED := by
      rcases hp v1 (by simp) with hpend | hcanc
      · refine cancel_blocked_step_cancels dag st v1 hpend ?_
        rw [is_blocked_iff]
        obtain ⟨t, ht, htid, hdep⟩ := hedge
        exact ⟨t, ht, htid, v0, hdep, h0⟩
      · rw [cancel_blocked_step_stays dag st v1 (by simp [hcanc])]
        exact hcanc
    have hp' : ∀ v ∈ p' ++ [vk], cancel_blocked_step dag st v = PENDING ∨
        cancel_blocked_step dag st v = CANCELLED := by
      intro v hv
      rcases hp v (by rw [List.cons_append]; exact List.mem_cons_of_mem _ hv) with hpend | hcanc
      · exact cancel_blocked_step_pending_cases dag st v hpend
      · right
        rw [cancel_blocked_step_stays dag st v (by simp [hcanc])]
        exact hcanc
    rw [List.length_cons, Nat.succ_add, Function.iterate_succ_apply]
    exact ih (cancel_blocked_step dag st) v1 vk hchain' (Or.inr hv1) hp'

/-- The resolver reports successful termination exactly when every task of
the DAG is `SUCCESS`. -/
theorem is_terminal_success_iff (dag : DAGDefinition)
    (st : String → PipelineStatus) :
    is_terminal dag st = some TerminalReason.success ↔
      ∀ t ∈ dag.tasks, st t.task_id = SUCCESS := by
  by_cases h : (dag.tasks.all fun t => decide (st t.task_id = SUCCESS)) = true
  · rw [is_terminal, if_pos h]
    simp only [List.all_eq_true, decide_eq_true_eq] at h
    exact iff_of_true rfl h
  · rw [is_terminal, if_neg h]
    simp only [List.all_eq_true, decide_eq_true_eq, not_forall] at h
    constructor
    · intro hc
      split_ifs at hc <;> simp_all
    · intro hall
      obtain ⟨t, ht, hne⟩ := h
      exact absurd (hall t ht) hne

/-- C1 (spec-modelled: the repository implements no Dependency Resolver).
For every DAG and status map: `ready_tasks` returns exactly the task ids
whose own status is `PENDING` and all of whose dependencies are `SUCCESS`;
a task one of whose dependencies is `FAILED` or `CANCELLED` is never
returned (in a duplicate-free DAG) and is marked `CANCELLED` by the
blocked-cancellation pass while still `PENDING`; a failure propagates
transitively down every dependency chain of pending tasks; and
`is_terminal` reports success exactly when every task is `SUCCESS`.  The
spec's concrete `A`/`B` scenario behaves as stated. -/
theorem C1_dependency_resolver :
    (∀ (dag : DAGDefinition) (st : String → PipelineStatus) (tid : String),
        tid ∈ ready_tasks dag st ↔
          ∃ t, t ∈ dag.tasks ∧ t.task_id = tid ∧ st tid = PENDING ∧
            ∀ d ∈ t.dependencies, st d = SUCCESS) ∧
      (∀ (dag : DAGDefinition) (st : String → PipelineStatus)
          (t : TaskDefinition) (d : String),
          (dag.tasks.map TaskDefinition.task_id).Nodup →
          t ∈ dag.tasks → d ∈ t.dependencies →
          (st d = FAILED ∨ st d = CANCELLED) →
          t.task_id ∉ ready_tasks dag st ∧
            (st t.task_id = PENDING →
              cancel_blocked_step dag st t.task_id = CANCELLED)) ∧
      (∀ (dag : DAGDefinition) (st : String → PipelineStatus)
          (v0 vk : String) (p : List String),
          List.Chain (dep_edge dag) v0 (p ++ [vk]) →
          (st v0 = FAILED ∨ st v0 = CANCELLED) →
          (∀ v ∈ p ++ [vk], st v = PENDING) →
          (cancel_blocked_step dag)^[p.length + 1] st vk = CANCELLED) ∧
      (∀ (dag : DAGDefinition) (st : String → PipelineStatus),
          is_terminal dag st = some TerminalReason.success ↔
            ∀ t ∈ dag.tasks, st t.task_id = SUCCESS) ∧
      ready_tasks dagAB stFresh = ["A"] ∧
      ready_tasks dagAB stASucc = ["B"] ∧
      ready_tasks dagAB stBoth = [] ∧
      is_terminal dagAB stBoth = some TerminalReason.success := by
  refine ⟨fun dag st tid => mem_ready_tasks dag st tid, ?_, ?_,
    fun dag st => is_terminal_success_iff dag st, rfl, rfl, rfl, rfl⟩
  · intro dag st t d hnd ht hd hfc
    constructor
    · intro hmem
      rw [mem_ready_tasks] at hmem
      obtain ⟨t', ht', htid', -, hsucc⟩ := hmem
      have : t' = t := List.inj_on_of_nodup_map hnd ht' ht htid'
      subst this
      have := hsucc d hd
      rcases hfc with hf | hc <;> simp_all
    · intro hpend
      refine cancel_blocked_step_cancels dag st t.task_id hpend ?_
      rw [is_blocked_iff]
      exact ⟨t, ht, rfl, d, hd, hfc⟩
  · intro dag st v0 vk p hchain h0 hp
    exact cancel_propagation_aux dag p st v0 vk hchain h0
      (fun v hv => Or.inl (hp v hv))

/-- C1 witness: in the DAG `A ← B` with `A` failed, `B` is not ready and
the blocked-cancellation step cancels it, also via the one-edge chain. -/
theorem C1_resolver_witness :
    ("B" ∉ ready_tasks dagAB stAFail ∧
        (stAFail "B" = PENDING →
          cancel_blocked_step dagAB stAFail "B" = CANCELLED)) ∧
      (cancel_blocked_step dagAB)^[1] stAFail "B" = CANCELLED :=
  ⟨C1_dependency_resolver.2.1 dagAB stAFail
      { task_id := "B", dependencies := ["A"] } "A" (by decide) (by decide)
      (by decide) (Or.inl (by decide)),
    C1_dependency_resolver.2.2.1 dagAB stAFail "A" "B" []
      (List.Chain.cons
        ⟨{ task_id := "B", dependencies := ["A"] }, by decide, rfl, by decide⟩
        List.Chain.nil)
      (Or.inl (by decide)) (by decide)⟩

/-- The id-collection loop returns `ok`, `MissingTaskId`, or some
`DuplicateTaskId`. -/
theorem collectTaskIds_error_shape :
    ∀ (tasks : List TaskDefinition) (seen : List String),
      (∃ ids, collectTaskIds tasks seen = .ok ids) ∨
        collectTaskIds tasks seen = .error .MissingTaskId ∨
        ∃ i, collectTaskIds tasks seen = .error (.DuplicateTaskId i) := by
  intro tasks
  induction tasks with
  | nil => exact fun seen => Or.inl ⟨seen, rfl⟩
  | cons t rest ih =>
    intro seen
    unfold collectTaskIds
    split_ifs with h1 h2
    · exact Or.inr (Or.inl rfl)
    · exact Or.inr (Or.inr ⟨t.task_id, rfl⟩)
    · exact ih (t.task_id :: seen)

/-- A successful id collection implies the task ids are duplicate-free and
disjoint from the starting accumulator. -/
theorem collectTaskIds_ok_nodup :
    ∀ (tasks : List TaskDefinition) (seen ids : List String),
      collectTaskIds tasks seen = .ok ids →
      (tasks.map TaskDefinition.task_id).Nodup ∧
        ∀ i ∈ tasks.map TaskDefinition.task_id, i ∉ seen := by
  intro tasks
  induction tasks with
  | nil => simp
  | cons t rest ih =>
    intro seen ids h
    unfold collectTaskIds at h
    split_ifs at h with h1 h2
    obtain ⟨hnd, hni⟩ := ih (t.task_id :: seen) ids h
    refine ⟨?_, ?_⟩
    · rw [List.map_cons, List.nodup_cons]
      exact ⟨fun hmem => (hni t.task_id hmem) (List.mem_cons_self _ _), hnd⟩
    · intro i hi
      rw [List.map_cons, List.mem_cons] at hi
      rcases hi with rfl | hi
      · exact h2
      · exact fun hs => hni i hi (List.mem_cons_of_mem _ hs)

/-- With no falsy task id, the collection loop never reports
`MissingTaskId`. -/
theorem collectTaskIds_ne_missing :
    ∀ (tasks : List TaskDefinition) (seen : List String),
      (∀ t ∈ tasks, t.task_id ≠ "") →
      collectTaskIds tasks seen ≠ .error .MissingTaskId := by
  intro tasks
  induction tasks with
  | nil => simp [collectTaskIds]
  | cons t rest ih =>
    intro seen hne
    unfold collectTaskIds
    split_ifs with h1 h2
    · exact absurd h1 (hne t (List.mem_cons_self _ _))
    · simp
    · exact ih (t.task_id :: seen) fun u hu => hne u (List.mem_cons_of_mem _ hu)

/-- A `DuplicateTaskId i` outcome names an id that was already in the
accumulator or occurs at least twice in the task list. -/
theorem collectTaskIds_dup_count :
    ∀ (tasks : List TaskDefinition) (seen : List String) (i : String),
      collectTaskIds tasks seen = .error (.DuplicateTaskId i) →
      (i ∈ seen ∧ i ∈ tasks.map TaskDefinition.task_id) ∨
        2 ≤ (tasks.map TaskDefinition.task_id).count i := by
  intro tasks
  induction tasks with
  | nil => simp [collectTaskIds]
  | cons t rest ih =>
    intro seen i h
    unfold collectTaskIds at h
    split_ifs at h with h1 h2
    · simp at h
    · simp only [Except.error.injEq, DagError.DuplicateTaskId.injEq] at h
      subst h
      exact Or.inl ⟨h2, by simp⟩
    · rcases ih (t.task_id :: seen) i h with ⟨hs, hm⟩ | hc
      · rw [List.mem_cons] at hs
        rcases hs with rfl | hs
        · refine Or.inr ?_
          have hpos : 0 < (rest.map TaskDefinition.task_id).count t.task_id :=
            List.count_pos_iff.mpr hm
          rw [List.map_cons]
          simp only [List.count_cons]
          split_ifs with hx
          · omega
          · simp at hx
        · exact Or.inl ⟨hs, List.mem_cons_of_mem _ hm⟩
      · refine Or.inr (le_trans hc ?_)
        rw [List.map_cons]
        simp only [List.count_cons]
        split_ifs <;> omega

/-- On duplicate-free, non-falsy ids the collection loop succeeds and
returns the accumulated id set. -/
theorem collectTaskIds_ok_val :
    ∀ (tasks : List TaskDefinition) (seen : List String),
      (∀ t ∈ tasks, t.task_id ≠ "") →
      (∀ i ∈ tasks.map TaskDefinition.task_id, i ∉ seen) →
      (tasks.map TaskDefinition.task_id).Nodup →
      collectTaskIds tasks seen =
        .ok ((tasks.map TaskDefinition.task_id).reverse ++ seen) := by
  intro tasks
  induction tasks with
  | nil => simp [collectTaskIds]
  | cons t rest ih =>
    intro seen hne hns hnd
    rw [List.map_cons, List.nodup_cons] at hnd
    unfold collectTaskIds
    rw [if_neg (hne t (List.mem_cons_self _ _)),
      if_neg (hns t.task_id (by simp))]
    rw [ih (t.task_id :: seen)
      (fun u hu => hne u (List.mem_cons_of_mem _ hu))
      (fun i hi => by
        rw [List.mem_cons]
        rintro (rfl | hsi)
        · exact hnd.1 hi
        · exact hns i (List.mem_cons_of_mem _ hi) hsi)
      hnd.2]
    rw [List.map_cons, List.reverse_cons, List.append_assoc]
    rfl

/-- The per-task dependency loop succeeds when every dependency is a known
id. -/
theorem checkDepsOfTask_ok (ids : List String) (tid : String) :
    ∀ deps : List String, (∀ d ∈ deps, d ∈ ids) →
      checkDepsOfTask ids tid deps = .ok () := by
  intro deps
  induction deps with
  | nil => intro _; rfl
  | cons d ds ih =>
    intro h
    unfold checkDepsOfTask
    rw [if_pos (h d (List.mem_cons_self _ _))]
    exact ih fun u hu => h u (List.mem_cons_of_mem _ hu)

/-- With some unknown dependency, the per-task loop reports
`UnknownDependency` naming this task and an actually-unknown dependency. -/
theorem checkDepsOfTask_err (ids : List String) (tid : String) :
    ∀ deps : List String, (∃ d ∈ deps, d ∉ ids) →
      ∃ d, checkDepsOfTask ids tid deps = .error (.UnknownDependency tid d) ∧
        d ∈ deps ∧ d ∉ ids := by
  intro deps
  induction deps with
  | nil => simp
  | cons d ds ih =>
    intro h
    unfold checkDepsOfTask
    by_cases hd : d ∈ ids
    · rw [if_pos hd]
      obtain ⟨d0, hd0m, hd0n⟩ := h
      rw [List.mem_cons] at hd0m
      rcases hd0m with rfl | hd0m
      · exact absurd hd hd0n
      · obtain ⟨d1, hres, hm, hn⟩ := ih ⟨d0, hd0m, hd0n⟩
        exact ⟨d1, hres, List.mem_cons_of_mem _ hm, hn⟩
    · rw [if_neg hd]
      exact ⟨d, rfl, List.mem_cons_self _ _, hd⟩

/-- With a dangling edge somewhere, the dependency check reports
`UnknownDependency` naming a real task and a real unknown dependency of
it. -/
theorem checkAllDeps_err (ids : List String) :
    ∀ tasks : List TaskDefinition,
      (∃ t ∈ tasks, ∃ d ∈ t.dependencies, d ∉ ids) →
      ∃ t' d', checkAllDeps ids tasks = .error (.UnknownDependency t' d') ∧
        (∃ u ∈ tasks, u.task_id = t' ∧ d' ∈ u.dependencies) ∧ d' ∉ ids := by
  intro tasks
  induction tasks with
  | nil => simp
  | cons t rest ih =>
    intro h
    unfold checkAllDeps
    by_cases hall : ∀ d ∈ t.dependencies, d ∈ ids
    · rw [checkDepsOfTask_ok ids t.task_id t.dependencies hall]
      obtain ⟨t0, ht0m, hd0⟩ := h
      rw [List.mem_cons] at ht0m
      rcases ht0m with rfl | ht0m
      · obtain ⟨d0, hd0m, hd0n⟩ := hd0
        exact absurd (hall d0 hd0m) hd0n
      · obtain ⟨t', d', hres, ⟨u, hum, hut, hud⟩, hn⟩ := ih ⟨t0, ht0m, hd0⟩
        exact ⟨t', d', hres, ⟨u, List.mem_cons_of_mem _ hum, hut, hud⟩, hn⟩
    · push_neg at hall
      obtain ⟨d1, hres, hm, hn⟩ :=
        checkDepsOfTask_err ids t.task_id t.dependencies
          (by obtain ⟨d0, h1, h2⟩ := hall; exact ⟨d0, h1, h2⟩)
      rw [hres]
      exact ⟨t.task_id, d1, rfl,
        ⟨t, List.mem_cons_self _ _, rfl, hm⟩, hn⟩

/-- C8: `validate` applies the structural checks in order, each with a
distinct failure kind: a DAG with zero tasks is rejected with `EmptyDAG`; a
DAG (with non-empty ids, as the pydantic schema guarantees) containing a
duplicated task id is rejected with `DuplicateTaskId` naming an id that
occurs at least twice; a duplicate-free DAG with a dependency absent from
the task set is rejected with `UnknownDependency` naming a task and its
actually-unknown dependency. -/
theorem C8_structural_checks :
    (∀ dag : DAGDefinition,
        dag.tasks = [] → validate_dag dag = .error .EmptyDAG) ∧
      (∀ dag : DAGDefinition,
        (∀ t ∈ dag.tasks, t.task_id ≠ "") →
        ¬ (dag.tasks.map TaskDefinition.task_id).Nodup →
        ∃ i, validate_dag dag = .error (.DuplicateTaskId i) ∧
          2 ≤ (dag.tasks.map TaskDefinition.task_id).count i) ∧
      (∀ dag : DAGDefinition,
        (∀ t ∈ dag.tasks, t.task_id ≠ "") →
        (dag.tasks.map TaskDefinition.task_id).Nodup →
        (∃ t ∈ dag.tasks, ∃ d ∈ t.dependencies,
          d ∉ dag.tasks.map TaskDefinition.task_id) →
        ∃ t' d', validate_dag dag = .error (.UnknownDependency t' d') ∧
          (∃ u ∈ dag.tasks, u.task_id = t' ∧ d' ∈ u.dependencies) ∧
          d' ∉ dag.tasks.map TaskDefinition.task_id) := by
  refine ⟨?_, ?_, ?_⟩
  · intro dag h
    unfold validate_dag
    rw [if_pos h]
  · intro dag hne hnnd
    have htne : dag.tasks ≠ [] := by
      intro h0
      rw [h0] at hnnd
      exact hnnd (by simp)
    rcases collectTaskIds_error_shape dag.tasks [] with ⟨ids, hok⟩ | hmiss | ⟨i, hdup⟩
    · exact absurd (collectTaskIds_ok_nodup dag.tasks [] ids hok).1 hnnd
    · exact absurd hmiss (collectTaskIds_ne_missing dag.tasks [] hne)
    · refine ⟨i, ?_, ?_⟩
      · unfold validate_dag
        rw [if_neg htne, hdup]
      · rcases collectTaskIds_dup_count dag.tasks [] i hdup with ⟨hs, -⟩ | hc
        · simp at hs
        · exact hc
  · intro dag hne hnd hdang
    have hids : collectTaskIds dag.tasks [] =
        .ok ((dag.tasks.map TaskDefinition.task_id).reverse ++ []) :=
      collectTaskIds_ok_val dag.tasks [] hne (by simp) hnd
    have htne : dag.tasks ≠ [] := by
      obtain ⟨t, ht, -⟩ := hdang
      intro h0
      rw [h0] at ht
      exact absurd ht (List.not_mem_nil t)
    have hmem : ∀ x : String,
        x ∈ (dag.tasks.map TaskDefinition.task_id).reverse ++ [] ↔
          x ∈ dag.tasks.map TaskDefinition.task_id := by
      intro x
      simp
    obtain ⟨t', d', hres, hedge, hn⟩ :=
      checkAllDeps_err ((dag.tasks.map TaskDefinition.task_id).reverse ++ [])
        dag.tasks
        (by
          obtain ⟨t, ht, d, hd, hnm⟩ := hdang
          exact ⟨t, ht, d, hd, fun hin => hnm ((hmem d).mp hin)⟩)
    refine ⟨t', d', ?_, hedge, fun hin => hn ((hmem d').mpr hin)⟩
    unfold validate_dag
    rw [if_neg htne, hids]
    change
      (match
          checkAllDeps ((dag.tasks.map TaskDefinition.task_id).reverse ++ [])
            dag.tasks with
        | Except.error e => Except.error e
        | Except.ok _ => check_dag_cycles dag.tasks) =
        Except.error (DagError.UnknownDependency t' d')
    rw [hres]

/-- C8 witness: the three structural rejections evaluated on `dagEmpty`,
`dagDup` and `dagDangling`. -/
theorem C8_structural_witness :
    validate_dag dagEmpty = .error .EmptyDAG ∧
      (∃ i, validate_dag dagDup = .error (.DuplicateTaskId i) ∧
        2 ≤ (dagDup.tasks.map TaskDefinition.task_id).count i) ∧
      ∃ t' d', validate_dag dagDangling = .error (.UnknownDependency t' d') ∧
        (∃ u ∈ dagDangling.tasks, u.task_id = t' ∧ d' ∈ u.dependencies) ∧
        d' ∉ dagDangling.tasks.map TaskDefinition.task_id :=
  ⟨C8_structural_checks.1 dagEmpty rfl,
    C8_structural_checks.2.1 dagDup (by decide) (by decide),
    C8_structural_checks.2.2 dagDangling (by decide) (by decide) (by decide)⟩

end Foundry
